import Mathlib

/-
  Verification development for the FLEX_QC_APP repository.

  The definitions below are a shallow embedding of the core of the
  application: the checkpoint data model and submit-time completion check
  (src/App.tsx, handleFinalSubmit), the device-status store operations
  (src/unnamed/part_001: getDeviceStatus, getDeviceStatuses,
  updateDeviceStatus, saveReport), the stage-entry gate
  (src/App.tsx, handleDeviceSubmit), the scan path (src/App.tsx,
  detectCode), the admin user CRUD (src/App.tsx, AdminPanel), the
  dashboard device table (src/App.tsx, renderDashboard) and the CSV field
  escaping (src/App.tsx, handleExportCSV).

  JavaScript strings are Lean Strings; null-able fields are Options;
  timestamps (Date.now / toISOString) are an explicit Nat parameter
  threaded through the operations that read the clock.
-/

namespace FlexQC

/-- Checkpoint pass/fail status; the TypeScript type is 'Pass' | 'Fail' | null,
so a checkpoint carries an Option CPStatus. -/
inductive CPStatus
  | pass
  | fail
deriving DecidableEq

/-- Embedding of the CheckpointResult interface of src/types.ts. -/
structure CheckpointResult where
  id : String
  label : String
  status : Option CPStatus
  image : Option String
  reason : String
deriving DecidableEq

/-- Per-stage outcome stored in a DeviceStatus row ('pending' | 'completed' | 'failed'). -/
inductive StageOutcome
  | pending
  | completed
  | failed
deriving DecidableEq

/-- Embedding of the DeviceStatus interface of src/unnamed/part_001. -/
structure DeviceStatus where
  deviceId : String
  fqcStatus : StageOutcome
  packagingStatus : StageOutcome
  lastUpdated : Nat
deriving DecidableEq

/-- A selected, non-null stage ('FQC' | 'Packaging'). -/
inductive StageSel
  | FQC
  | Packaging
deriving DecidableEq

/-- Embedding of the QCReport interface of src/types.ts (stage is non-null on
every path that reaches submission). -/
structure QCReport where
  id : String
  timestamp : Nat
  stage : StageSel
  userId : String
  deviceId : String
  checkpoints : List CheckpointResult
deriving DecidableEq

/-- The persisted collections touched by a submission: the append-only report
list and the device-status list (the two localStorage blobs of
src/unnamed/part_001). -/
structure Store where
  reports : List QCReport
  deviceStatuses : List DeviceStatus
deriving DecidableEq

/-- Whitespace test used by the model of JavaScript's String.prototype.trim. -/
def isWS (c : Char) : Bool :=
  decide (c = ' ') || decide (c = '\t') || decide (c = '\n') || decide (c = '\r')

/-- Model of JavaScript's String.prototype.trim: drop leading and trailing
whitespace (structural, so it evaluates on concrete inputs). -/
def trimStr (s : String) : String :=
  String.mk (((s.data.dropWhile isWS).reverse.dropWhile isWS).reverse)

/-- Embedding of the per-checkpoint test inside handleFinalSubmit
(src/App.tsx line 288): cp.status !== null && cp.image !== null &&
(cp.status === 'Pass' || (cp.status === 'Fail' && cp.reason.trim() !== '')). -/
def checkpointOk (cp : CheckpointResult) : Bool :=
  decide (cp.status ≠ none) && decide (cp.image ≠ none) &&
    (decide (cp.status = some CPStatus.pass) ||
      (decide (cp.status = some CPStatus.fail) && decide (trimStr cp.reason ≠ "")))

/-- Embedding of the isComplete check of handleFinalSubmit: checkpoints.every(...). -/
def canSubmit (cps : List CheckpointResult) : Bool :=
  cps.all checkpointOk

/-- Embedding of report.checkpoints.some(cp => cp.status === 'Fail')
(src/App.tsx line 295). -/
def anyFail (cps : List CheckpointResult) : Bool :=
  cps.any fun cp => decide (cp.status = some CPStatus.fail)

/-- The stage outcome handleFinalSubmit passes to updateDeviceStatus:
'failed' when some checkpoint failed, else 'completed'. -/
def submitOutcome (cps : List CheckpointResult) : StageOutcome :=
  if anyFail cps then StageOutcome.failed else StageOutcome.completed

/-- Lookup of src/unnamed/part_001 getDeviceStatus:
allStatuses.find(status => status.deviceId === deviceId) || null. -/
def getDeviceStatus : List DeviceStatus → String → Option DeviceStatus
  | [], _ => none
  | r :: rs, d => if r.deviceId = d then some r else getDeviceStatus rs d

/-- The in-place mutation of an existing row inside updateDeviceStatus: the
selected stage field and lastUpdated are assigned, nothing else. -/
def setStageField (r : DeviceStatus) (stage : StageSel) (st : StageOutcome) (t : Nat) : DeviceStatus :=
  match stage with
  | StageSel.FQC => { r with fqcStatus := st, lastUpdated := t }
  | StageSel.Packaging => { r with packagingStatus := st, lastUpdated := t }

/-- The fresh row built by updateDeviceStatus when no row for the device
exists: both fields start at 'pending' and the selected stage field is then
assigned. -/
def freshStatus (d : String) (stage : StageSel) (st : StageOutcome) (t : Nat) : DeviceStatus :=
  match stage with
  | StageSel.FQC =>
      { deviceId := d, fqcStatus := st, packagingStatus := StageOutcome.pending, lastUpdated := t }
  | StageSel.Packaging =>
      { deviceId := d, fqcStatus := StageOutcome.pending, packagingStatus := st, lastUpdated := t }

/-- Embedding of src/unnamed/part_001 updateDeviceStatus: the first row whose
deviceId matches is updated in place, otherwise a fresh row is pushed at the
end; t stands for new Date().toISOString(). -/
def updateDeviceStatus : List DeviceStatus → String → StageSel → StageOutcome → Nat → List DeviceStatus
  | [], d, stage, st, t => [freshStatus d stage st t]
  | r :: rs, d, stage, st, t =>
    if r.deviceId = d then setStageField r stage st t :: rs
    else r :: updateDeviceStatus rs d stage st t

/-- Read a row's field for a given stage. -/
def stageField (r : DeviceStatus) : StageSel → StageOutcome
  | StageSel.FQC => r.fqcStatus
  | StageSel.Packaging => r.packagingStatus

/-- The stage opposite to the one submitted. -/
def otherStage : StageSel → StageSel
  | StageSel.FQC => StageSel.Packaging
  | StageSel.Packaging => StageSel.FQC

/-- Embedding of src/unnamed/part_001 saveReport: appends the report to the
report collection and then calls updateDeviceStatus(report.deviceId,
report.stage, 'completed') unconditionally. -/
def saveReport (store : Store) (report : QCReport) (t : Nat) : Store :=
  { reports := store.reports ++ [report],
    deviceStatuses :=
      updateDeviceStatus store.deviceStatuses report.deviceId report.stage StageOutcome.completed t }

/-- The report object built by handleFinalSubmit (src/App.tsx line 291). -/
def submitReport (cps : List CheckpointResult) (stage : StageSel)
    (userId deviceId : String) (t : Nat) : QCReport :=
  { id := "REP-" ++ toString t, timestamp := t, stage := stage,
    userId := userId, deviceId := deviceId, checkpoints := cps }

/-- Embedding of handleFinalSubmit (src/App.tsx lines 287-299) restricted to
its effect on the persisted store: if the completion check fails nothing is
written; otherwise saveReport runs (report append plus its internal
device-status write) and then updateDeviceStatus runs again with the
checkpoint-determined outcome. -/
def handleFinalSubmit (store : Store) (cps : List CheckpointResult) (stage : StageSel)
    (userId deviceId : String) (t : Nat) : Store :=
  if canSubmit cps then
    let afterSave := saveReport store (submitReport cps stage userId deviceId t) t
    { afterSave with
        deviceStatuses :=
          updateDeviceStatus afterSave.deviceStatuses deviceId stage (submitOutcome cps) t }
  else store

/-- C1: the submit-time completion validator returns true iff every checkpoint
has a non-null status, a non-null image, and either status Pass or status Fail
with a reason that is non-empty after trimming; when it returns false the
submission leaves the store untouched. -/
theorem canSubmit_complete_iff (cps : List CheckpointResult) :
    (canSubmit cps = true ↔ ∀ cp ∈ cps,
        cp.status ≠ none ∧ cp.image ≠ none ∧
        (cp.status = some CPStatus.pass ∨
          (cp.status = some CPStatus.fail ∧ trimStr cp.reason ≠ ""))) ∧
    ∀ (store : Store) (stage : StageSel) (u d : String) (t : Nat),
      canSubmit cps = false → handleFinalSubmit store cps stage u d t = store := by
  constructor
  · simp [canSubmit, List.all_eq_true, checkpointOk, Bool.and_eq_true, Bool.or_eq_true,
      decide_eq_true_eq, and_assoc]
  · intro store stage u d t h
    simp [handleFinalSubmit, h]

/-- A concrete incomplete checklist: one checkpoint with unset status and no image. -/
def cexIncompleteCps : List CheckpointResult :=
  [{ id := "fqc_01", label := "Check for all 7 screws properly mounted",
     status := none, image := none, reason := "" }]

/-- Witness for C1: on a concrete incomplete checklist the validator is false
and the submission is a no-op on a concrete store. -/
theorem canSubmit_complete_iff_witness :
    handleFinalSubmit { reports := [], deviceStatuses := [] } cexIncompleteCps
      StageSel.FQC "op1" "D1" 1 = { reports := [], deviceStatuses := [] } :=
  (canSubmit_complete_iff cexIncompleteCps).2
    { reports := [], deviceStatuses := [] } StageSel.FQC "op1" "D1" 1 (by decide)

/-- setStageField leaves the row's deviceId unchanged. -/
theorem deviceId_setStageField (r : DeviceStatus) (stage : StageSel) (st : StageOutcome) (t : Nat) :
    (setStageField r stage st t).deviceId = r.deviceId := by
  cases stage <;> rfl

/-- The fresh row carries the requested deviceId. -/
theorem deviceId_freshStatus (d : String) (stage : StageSel) (st : StageOutcome) (t : Nat) :
    (freshStatus d stage st t).deviceId = d := by
  cases stage <;> rfl

/-- setStageField writes the selected stage field. -/
theorem stageField_setStageField_self (r : DeviceStatus) (stage : StageSel) (st : StageOutcome) (t : Nat) :
    stageField (setStageField r stage st t) stage = st := by
  cases stage <;> rfl

/-- setStageField leaves the opposite stage field unchanged. -/
theorem stageField_setStageField_other (r : DeviceStatus) (stage : StageSel) (st : StageOutcome) (t : Nat) :
    stageField (setStageField r stage st t) (otherStage stage) = stageField r (otherStage stage) := by
  cases stage <;> rfl

/-- setStageField writes the timestamp. -/
theorem lastUpdated_setStageField (r : DeviceStatus) (stage : StageSel) (st : StageOutcome) (t : Nat) :
    (setStageField r stage st t).lastUpdated = t := by
  cases stage <;> rfl

/-- The fresh row has the requested outcome in the selected stage field. -/
theorem stageField_freshStatus_self (d : String) (stage : StageSel) (st : StageOutcome) (t : Nat) :
    stageField (freshStatus d stage st t) stage = st := by
  cases stage <;> rfl

/-- The fresh row's untouched stage field is 'pending'. -/
theorem stageField_freshStatus_other (d : String) (stage : StageSel) (st : StageOutcome) (t : Nat) :
    stageField (freshStatus d stage st t) (otherStage stage) = StageOutcome.pending := by
  cases stage <;> rfl

/-- Looking up the written device after updateDeviceStatus: an existing first
match is overwritten by setStageField, otherwise the fresh row is found. -/
theorem getDeviceStatus_updateDeviceStatus_self (ss : List DeviceStatus) (d : String)
    (stage : StageSel) (st : StageOutcome) (t : Nat) :
    getDeviceStatus (updateDeviceStatus ss d stage st t) d =
      some (match getDeviceStatus ss d with
            | some r => setStageField r stage st t
            | none => freshStatus d stage st t) := by
  induction ss with
  | nil => simp [updateDeviceStatus, getDeviceStatus, deviceId_freshStatus]
  | cons r rs ih =>
      by_cases h : r.deviceId = d
      · simp [updateDeviceStatus, getDeviceStatus, h, deviceId_setStageField]
      · simp [updateDeviceStatus, getDeviceStatus, h, ih]

/-- Looking up any other device after updateDeviceStatus is unchanged. -/
theorem getDeviceStatus_updateDeviceStatus_other (ss : List DeviceStatus) (d : String)
    (stage : StageSel) (st : StageOutcome) (t : Nat) (e : String) (he : e ≠ d) :
    getDeviceStatus (updateDeviceStatus ss d stage st t) e = getDeviceStatus ss e := by
  have hde : ¬ (d = e) := fun hd => he hd.symm
  induction ss with
  | nil => simp [updateDeviceStatus, getDeviceStatus, deviceId_freshStatus, hde]
  | cons r rs ih =>
      by_cases h : r.deviceId = d
      · simp [updateDeviceStatus, getDeviceStatus, h, deviceId_setStageField, hde]
      · by_cases h2 : r.deviceId = e <;>
          simp [updateDeviceStatus, getDeviceStatus, h, h2, he, ih]

/-- When the device has no row yet, updateDeviceStatus appends the fresh row. -/
theorem updateDeviceStatus_of_not_found (ss : List DeviceStatus) (d : String)
    (stage : StageSel) (st : StageOutcome) (t : Nat)
    (h : getDeviceStatus ss d = none) :
    updateDeviceStatus ss d stage st t = ss ++ [freshStatus d stage st t] := by
  induction ss with
  | nil => rfl
  | cons r rs ih =>
      by_cases h1 : r.deviceId = d
      · simp [getDeviceStatus, h1] at h
      · simp [getDeviceStatus, h1] at h
        simp [updateDeviceStatus, h1, ih h]

/-- Rows of every other device are preserved, with their order, by
updateDeviceStatus. -/
theorem updateDeviceStatus_filter_other (ss : List DeviceStatus) (d : String)
    (stage : StageSel) (st : StageOutcome) (t : Nat) :
    (updateDeviceStatus ss d stage st t).filter (fun r => decide (r.deviceId ≠ d)) =
      ss.filter (fun r => decide (r.deviceId ≠ d)) := by
  induction ss with
  | nil => simp [updateDeviceStatus, List.filter, deviceId_freshStatus]
  | cons r rs ih =>
      simp only [ne_eq, decide_not] at ih ⊢
      by_cases h : r.deviceId = d
      · simp [updateDeviceStatus, List.filter_cons, h, deviceId_setStageField]
      · simp [updateDeviceStatus, List.filter_cons, h, ih]

/-- C6: updateDeviceStatus touches only the selected stage field and
lastUpdated of the addressed device's row: rows of every other device are
unchanged (in content and order); when no row exists a fresh one is appended
whose untouched stage field is 'pending'; when a row exists only the selected
stage field and lastUpdated are overwritten, the opposite field and deviceId
are preserved, and the timestamp becomes later whenever the clock advanced. -/
theorem updateDeviceStatus_frame (ss : List DeviceStatus) (d : String) (stage : StageSel)
    (st : StageOutcome) (t : Nat) :
    ((updateDeviceStatus ss d stage st t).filter (fun r => decide (r.deviceId ≠ d)) =
        ss.filter (fun r => decide (r.deviceId ≠ d))) ∧
    (getDeviceStatus ss d = none →
        updateDeviceStatus ss d stage st t = ss ++ [freshStatus d stage st t] ∧
        stageField (freshStatus d stage st t) stage = st ∧
        stageField (freshStatus d stage st t) (otherStage stage) = StageOutcome.pending ∧
        (freshStatus d stage st t).lastUpdated = t) ∧
    (∀ r, getDeviceStatus ss d = some r →
        getDeviceStatus (updateDeviceStatus ss d stage st t) d = some (setStageField r stage st t) ∧
        stageField (setStageField r stage st t) stage = st ∧
        stageField (setStageField r stage st t) (otherStage stage) = stageField r (otherStage stage) ∧
        (setStageField r stage st t).deviceId = r.deviceId ∧
        (setStageField r stage st t).lastUpdated = t ∧
        (r.lastUpdated < t → r.lastUpdated < (setStageField r stage st t).lastUpdated)) := by
  refine ⟨updateDeviceStatus_filter_other ss d stage st t, ?_, ?_⟩
  · intro h
    exact ⟨updateDeviceStatus_of_not_found ss d stage st t h,
      stageField_freshStatus_self d stage st t,
      stageField_freshStatus_other d stage st t, by cases stage <;> rfl⟩
  · intro r hr
    refine ⟨?_, stageField_setStageField_self r stage st t,
      stageField_setStageField_other r stage st t,
      deviceId_setStageField r stage st t,
      lastUpdated_setStageField r stage st t, ?_⟩
    · rw [getDeviceStatus_updateDeviceStatus_self, hr]
    · intro hlt
      rw [lastUpdated_setStageField]
      exact hlt

/-- Witness for C6: overwriting the FQC field of a concrete existing row sets
it to 'completed', stamps the new time, and leaves the packaging field at its
old value. -/
theorem updateDeviceStatus_frame_witness :
    getDeviceStatus
        (updateDeviceStatus
          [{ deviceId := "D1", fqcStatus := StageOutcome.pending,
             packagingStatus := StageOutcome.failed, lastUpdated := 0 }]
          "D1" StageSel.FQC StageOutcome.completed 5) "D1" =
      some { deviceId := "D1", fqcStatus := StageOutcome.completed,
             packagingStatus := StageOutcome.failed, lastUpdated := 5 } :=
  ((updateDeviceStatus_frame
      [{ deviceId := "D1", fqcStatus := StageOutcome.pending,
         packagingStatus := StageOutcome.failed, lastUpdated := 0 }]
      "D1" StageSel.FQC StageOutcome.completed 5).2.2
    { deviceId := "D1", fqcStatus := StageOutcome.pending,
      packagingStatus := StageOutcome.failed, lastUpdated := 0 } rfl).1

/-- Lookup after an update when the device already had a row. -/
theorem getDeviceStatus_update_of_found (ss : List DeviceStatus) (d : String)
    (stage : StageSel) (st : StageOutcome) (t : Nat) (r : DeviceStatus)
    (h : getDeviceStatus ss d = some r) :
    getDeviceStatus (updateDeviceStatus ss d stage st t) d = some (setStageField r stage st t) := by
  rw [getDeviceStatus_updateDeviceStatus_self, h]

/-- Lookup after an update when the device had no row. -/
theorem getDeviceStatus_update_of_none (ss : List DeviceStatus) (d : String)
    (stage : StageSel) (st : StageOutcome) (t : Nat)
    (h : getDeviceStatus ss d = none) :
    getDeviceStatus (updateDeviceStatus ss d stage st t) d = some (freshStatus d stage st t) := by
  rw [getDeviceStatus_updateDeviceStatus_self, h]

/-- C3: after a successful submission for device d at stage s, the stage-s
field of d's row is 'failed' when some submitted checkpoint failed and
'completed' when all passed, and the opposite stage's field keeps the value it
had before the submission (stated for a device that already had a row; lazy
creation of fresh rows is the subject of C6). -/
theorem submit_sets_stage_outcome (store : Store) (cps : List CheckpointResult)
    (stage : StageSel) (u d : String) (t : Nat) (r : DeviceStatus)
    (hc : canSubmit cps = true)
    (hr : getDeviceStatus store.deviceStatuses d = some r) :
    ∃ r', getDeviceStatus (handleFinalSubmit store cps stage u d t).deviceStatuses d = some r' ∧
      ((∃ cp ∈ cps, cp.status = some CPStatus.fail) → stageField r' stage = StageOutcome.failed) ∧
      ((∀ cp ∈ cps, cp.status = some CPStatus.pass) → stageField r' stage = StageOutcome.completed) ∧
      stageField r' (otherStage stage) = stageField r (otherStage stage) := by
  have hds : (handleFinalSubmit store cps stage u d t).deviceStatuses =
      updateDeviceStatus
        (updateDeviceStatus store.deviceStatuses d stage StageOutcome.completed t)
        d stage (submitOutcome cps) t := by
    simp [handleFinalSubmit, hc, saveReport, submitReport]
  have h1 := getDeviceStatus_update_of_found store.deviceStatuses d stage
    StageOutcome.completed t r hr
  have h2 := getDeviceStatus_update_of_found _ d stage (submitOutcome cps) t _ h1
  refine ⟨setStageField (setStageField r stage StageOutcome.completed t) stage (submitOutcome cps) t,
    by rw [hds]; exact h2, ?_, ?_, ?_⟩
  · intro hfail
    have ha : anyFail cps = true := by
      rcases hfail with ⟨cp, hmem, hst⟩
      simp [anyFail, List.any_eq_true]
      exact ⟨cp, hmem, hst⟩
    rw [stageField_setStageField_self]
    simp [submitOutcome, ha]
  · intro hpass
    have ha : anyFail cps = false := by
      simp [anyFail]
      intro cp hmem
      have := hpass cp hmem
      simp [this]
    rw [stageField_setStageField_self]
    simp [submitOutcome, ha]
  · rw [stageField_setStageField_other, stageField_setStageField_other]

/-- A concrete complete all-pass checklist. -/
def passCps : List CheckpointResult :=
  [{ id := "fqc_02", label := "Check for all 7 screws properly mounted",
     status := some CPStatus.pass, image := some "img", reason := "" }]

/-- A concrete complete checklist with one failed checkpoint and a reason. -/
def failCps : List CheckpointResult :=
  [{ id := "fqc_02", label := "Check for all 7 screws properly mounted",
     status := some CPStatus.fail, image := some "img", reason := "Screw missing" }]

/-- A concrete pre-existing device-status row for device D1. -/
def row0 : DeviceStatus :=
  { deviceId := "D1", fqcStatus := StageOutcome.pending,
    packagingStatus := StageOutcome.failed, lastUpdated := 0 }

/-- Witness for C3: submitting a concrete all-pass FQC checklist for a device
whose row already exists. -/
theorem submit_sets_stage_outcome_witness :
    ∃ r', getDeviceStatus (handleFinalSubmit { reports := [], deviceStatuses := [row0] }
          passCps StageSel.FQC "op1" "D1" 9).deviceStatuses "D1" = some r' ∧
      ((∃ cp ∈ passCps, cp.status = some CPStatus.fail) →
        stageField r' StageSel.FQC = StageOutcome.failed) ∧
      ((∀ cp ∈ passCps, cp.status = some CPStatus.pass) →
        stageField r' StageSel.FQC = StageOutcome.completed) ∧
      stageField r' (otherStage StageSel.FQC) = stageField row0 (otherStage StageSel.FQC) :=
  submit_sets_stage_outcome { reports := [], deviceStatuses := [row0] }
    passCps StageSel.FQC "op1" "D1" 9 row0 (by decide) rfl

/-- The sequence of status values handed to updateDeviceStatus for the
submitted device during one successful submission: saveReport's unconditional
'completed' write (src/unnamed/part_001 line 37) followed by
handleFinalSubmit's checkpoint-determined write (src/App.tsx line 295). -/
def deviceStatusWrites (cps : List CheckpointResult) : List StageOutcome :=
  [StageOutcome.completed, submitOutcome cps]

/-- C4 counterexample: on a concrete submission with a failed checkpoint, the
device-status update runs twice rather than once, and after the first of the
two writes (i.e. between the report append and the final state) the submitted
stage's field reads 'completed' although the checkpoint-determined outcome is
'failed'. -/
theorem submit_status_write_cex :
    canSubmit failCps = true ∧
    submitOutcome failCps = StageOutcome.failed ∧
    (deviceStatusWrites failCps).length = 2 ∧
    getDeviceStatus (saveReport { reports := [], deviceStatuses := [] }
        (submitReport failCps StageSel.FQC "op1" "D1" 9) 9).deviceStatuses "D1" =
      some { deviceId := "D1", fqcStatus := StageOutcome.completed,
             packagingStatus := StageOutcome.pending, lastUpdated := 9 } := by decide

/-- C4 amended: a successful submission appends the report and then performs
the two device-status writes of deviceStatusWrites in order (saveReport's
unconditional 'completed', then the checkpoint-determined outcome), both after
the report append; the final value of the submitted stage's field is the
checkpoint-determined outcome. -/
theorem submit_status_write_trace (store : Store) (cps : List CheckpointResult)
    (stage : StageSel) (u d : String) (t : Nat)
    (hc : canSubmit cps = true) :
    handleFinalSubmit store cps stage u d t =
      { reports := store.reports ++ [submitReport cps stage u d t],
        deviceStatuses := (deviceStatusWrites cps).foldl
          (fun ss o => updateDeviceStatus ss d stage o t) store.deviceStatuses } ∧
    (∃ r', getDeviceStatus (handleFinalSubmit store cps stage u d t).deviceStatuses d = some r' ∧
        stageField r' stage = submitOutcome cps) := by
  constructor
  · simp [handleFinalSubmit, hc, saveReport, submitReport, deviceStatusWrites]
  · have hds : (handleFinalSubmit store cps stage u d t).deviceStatuses =
        updateDeviceStatus
          (updateDeviceStatus store.deviceStatuses d stage StageOutcome.completed t)
          d stage (submitOutcome cps) t := by
      simp [handleFinalSubmit, hc, saveReport, submitReport]
    cases hcase : getDeviceStatus store.deviceStatuses d with
    | some r =>
        have h1 := getDeviceStatus_update_of_found _ d stage StageOutcome.completed t r hcase
        have h2 := getDeviceStatus_update_of_found _ d stage (submitOutcome cps) t _ h1
        exact ⟨_, by rw [hds]; exact h2, stageField_setStageField_self _ stage _ t⟩
    | none =>
        have h1 := getDeviceStatus_update_of_none _ d stage StageOutcome.completed t hcase
        have h2 := getDeviceStatus_update_of_found _ d stage (submitOutcome cps) t _ h1
        exact ⟨_, by rw [hds]; exact h2, stageField_setStageField_self _ stage _ t⟩

/-- Witness for the amended C4 at a concrete failing submission. -/
theorem submit_status_write_trace_witness :
    handleFinalSubmit { reports := [], deviceStatuses := [] } failCps StageSel.FQC "op1" "D1" 9 =
      { reports := [submitReport failCps StageSel.FQC "op1" "D1" 9],
        deviceStatuses := (deviceStatusWrites failCps).foldl
          (fun ss o => updateDeviceStatus ss "D1" StageSel.FQC o 9) [] } ∧
    (∃ r', getDeviceStatus (handleFinalSubmit { reports := [], deviceStatuses := [] } failCps
          StageSel.FQC "op1" "D1" 9).deviceStatuses "D1" = some r' ∧
        stageField r' StageSel.FQC = submitOutcome failCps) :=
  submit_status_write_trace { reports := [], deviceStatuses := [] } failCps
    StageSel.FQC "op1" "D1" 9 (by decide)

/-- The FQC checkpoint template of src/unnamed/part_003 (constants.tsx), as
(id, label) pairs. -/
def FQC_CHECKPOINTS : List (String × String) :=
  [("fqc_01", "Check for outer body – no scratches, cracks, dents (Top & Bottom Panel)"),
   ("fqc_02", "Check for all 7 screws properly mounted"),
   ("fqc_03", "Check for keypad – all buttons present as per layout, symbols clear and legible"),
   ("fqc_04", "Check display segment placement with Tohands logo and protective film attached; no dent, scratches, or gap between display and top cover"),
   ("fqc_05", "Check for laser marking: Smart Calculator V5 Powered by AI"),
   ("fqc_06", "Check both C-Type USB pin connectors – Charging (Right side) & Printer (Left side)"),
   ("fqc_07", "Verify LED light working during Power ON and charger connectivity"),
   ("fqc_08", "Display turns ON properly – no missing segments / black spots, proper brightness and contrast"),
   ("fqc_09", "Check Device ID verification with respect to System Info and Device Label"),
   ("fqc_10", "Observe speaker sound and voice quality"),
   ("fqc_11", "Check battery cover properly fixed and sticker position as per standard"),
   ("fqc_12", "Check label content clearly printed")]

/-- The Packaging checkpoint template of src/unnamed/part_003 (constants.tsx). -/
def PACKAGING_CHECKPOINTS : List (String × String) :=
  [("pkg_01", "Verify that the Device ID matches exactly across all three references: Internal Device ID (Calculator), Device ID on the bottom panel of the device, Device ID on the outer box label"),
   ("pkg_02", "Ensure the protective case is properly attached to the device"),
   ("pkg_03", "Verify the device is correctly placed inside the white device sleeve with logo, and ensure proper logo alignment"),
   ("pkg_04", "Confirm Packing Box Insert – 1 is present inside the packaging box"),
   ("pkg_05", "Verify the charging adapter and power cable (Type-C to Type-C) are correctly packed in Packing Box Insert – 2"),
   ("pkg_06", "Ensure the user manual / quick start guide is available inside the box"),
   ("pkg_07", "Verify the packaging box is properly closed and sealed using two circular package seal stickers"),
   ("pkg_08", "Ensure the closed box is covered with the packing sleeve (green & white) as per standard"),
   ("pkg_09", "Confirm the box is fully closed and secured by applying the wrapping cover"),
   ("pkg_10", "Verify the packed box weight falls within the approved acceptable range")]

/-- Materialisation of a stage's checklist: every entry starts with unset
status, no image and empty reason (src/App.tsx line 263 and line 152). -/
def buildChecklist (stage : StageSel) : List CheckpointResult :=
  (match stage with
   | StageSel.FQC => FQC_CHECKPOINTS
   | StageSel.Packaging => PACKAGING_CHECKPOINTS).map
    fun (p : String × String) =>
      { id := p.1, label := p.2, status := none, image := none, reason := "" }

/-- Errors surfaced by the manual device-entry step. -/
inductive DeviceEntryError
  | missingDeviceId
  | stagePrereqNotMet
deriving DecidableEq

/-- Embedding of handleDeviceSubmit (src/App.tsx lines 244-265): an
empty-after-trim identifier is refused; for Packaging the device must have a
row with fqcStatus 'completed'; on success the stage's checklist is built. -/
def handleDeviceSubmit (statuses : List DeviceStatus) (stage : StageSel) (deviceId : String) :
    Except DeviceEntryError (List CheckpointResult) :=
  if trimStr deviceId = "" then Except.error DeviceEntryError.missingDeviceId
  else if stage = StageSel.Packaging then
    match getDeviceStatus statuses deviceId with
    | none => Except.error DeviceEntryError.stagePrereqNotMet
    | some ds =>
      if ds.fqcStatus = StageOutcome.completed then Except.ok (buildChecklist stage)
      else Except.error DeviceEntryError.stagePrereqNotMet
  else Except.ok (buildChecklist stage)

/-- True when the entry step reached the checklist. -/
def entrySucceeds {ε α : Type} : Except ε α → Bool
  | Except.ok _ => true
  | Except.error _ => false

/-- A store holding a completed-FQC row keyed by the one-space identifier. -/
def wsStatuses : List DeviceStatus :=
  [{ deviceId := " ", fqcStatus := StageOutcome.completed,
     packagingStatus := StageOutcome.pending, lastUpdated := 0 }]

/-- C2 counterexample: for the identifier consisting of one space, a
DeviceStatus row with fqcStatus 'completed' exists, yet Packaging entry does
not succeed — and the refusal is MissingDeviceId, not StagePrerequisiteNotMet —
so the claimed iff (and refusal error) fails as stated. -/
theorem packaging_gate_claim_cex :
    (∃ ds, getDeviceStatus wsStatuses " " = some ds ∧ ds.fqcStatus = StageOutcome.completed) ∧
    entrySucceeds (handleDeviceSubmit wsStatuses StageSel.Packaging " ") = false ∧
    handleDeviceSubmit wsStatuses StageSel.Packaging " " =
      Except.error DeviceEntryError.missingDeviceId := by
  refine ⟨⟨_, rfl, rfl⟩, rfl, rfl⟩

/-- C2 amended: for an identifier whose trim is non-empty, Packaging entry
succeeds iff a DeviceStatus row for it exists with fqcStatus 'completed';
when it does not succeed the refusal is StagePrerequisiteNotMet; FQC entry
always succeeds for such an identifier. (An identifier that trims to empty is
refused with MissingDeviceId regardless of the store.) -/
theorem packaging_gate_spec (statuses : List DeviceStatus) (d : String)
    (h : trimStr d ≠ "") :
    (entrySucceeds (handleDeviceSubmit statuses StageSel.Packaging d) = true ↔
      ∃ ds, getDeviceStatus statuses d = some ds ∧ ds.fqcStatus = StageOutcome.completed) ∧
    (entrySucceeds (handleDeviceSubmit statuses StageSel.Packaging d) = false →
      handleDeviceSubmit statuses StageSel.Packaging d =
        Except.error DeviceEntryError.stagePrereqNotMet) ∧
    entrySucceeds (handleDeviceSubmit statuses StageSel.FQC d) = true := by
  refine ⟨?_, ?_, ?_⟩
  · cases hds : getDeviceStatus statuses d with
    | none => simp [handleDeviceSubmit, h, hds, entrySucceeds]
    | some ds =>
        by_cases hfqc : ds.fqcStatus = StageOutcome.completed <;>
          simp [handleDeviceSubmit, h, hds, hfqc, entrySucceeds]
  · intro hfalse
    cases hds : getDeviceStatus statuses d with
    | none => simp [handleDeviceSubmit, h, hds]
    | some ds =>
        by_cases hfqc : ds.fqcStatus = StageOutcome.completed
        · rw [handleDeviceSubmit] at hfalse
          simp [h, hds, hfqc, entrySucceeds] at hfalse
        · simp [handleDeviceSubmit, h, hds, hfqc]
  · simp [handleDeviceSubmit, h, entrySucceeds]

/-- Witness for the amended C2 at a concrete identifier and empty store: FQC
entry succeeds, Packaging entry is refused with StagePrerequisiteNotMet. -/
theorem packaging_gate_spec_witness :
    entrySucceeds (handleDeviceSubmit [] StageSel.FQC "D1") = true ∧
    handleDeviceSubmit [] StageSel.Packaging "D1" =
      Except.error DeviceEntryError.stagePrereqNotMet :=
  ⟨(packaging_gate_spec [] "D1" (by decide)).2.2,
   (packaging_gate_spec [] "D1" (by decide)).2.1 rfl⟩

/-- The workflow steps of src/types.ts AppStep. -/
inductive WorkflowStep
  | stageSelection
  | login
  | deviceIdEntry
  | scanDeviceId
  | checklist
  | success
  | admin
  | dashboard
deriving DecidableEq

/-- The session-level state the scan transition touches (currentStep,
selectedStage, deviceId, checkpoints of src/App.tsx). -/
structure Session where
  step : WorkflowStep
  selectedStage : Option StageSel
  deviceId : String
  checkpoints : List CheckpointResult
deriving DecidableEq

/-- Embedding of the scan-success branch of detectCode (src/App.tsx lines
147-156): the decoded string is stored verbatim as deviceId, the checklist for
the selected stage is built, and the step becomes Checklist — with no
device-status lookup and no gate of any kind. -/
def scanDecode (s : Session) (decoded : String) : Session :=
  { s with
      deviceId := decoded,
      checkpoints := buildChecklist
        (if s.selectedStage = some StageSel.FQC then StageSel.FQC else StageSel.Packaging),
      step := WorkflowStep.checklist }

/-- A concrete session sitting at the scan step for the Packaging stage. -/
def scanSessionPackaging : Session :=
  { step := WorkflowStep.scanDeviceId, selectedStage := some StageSel.Packaging,
    deviceId := "", checkpoints := [] }

/-- A concrete complete all-pass Packaging checklist (the template's first
checkpoint, marked Pass with an image, the others removed by the operator). -/
def passPkgCps : List CheckpointResult :=
  [{ id := "pkg_02", label := "Ensure the protective case is properly attached to the device",
     status := some CPStatus.pass, image := some "img", reason := "" }]

/-- C5: evaluation of the code at the failing input. With an empty
device-status store (so device D1 has no completed-FQC record), a successful
QR decode while scanning for the Packaging stage moves the session straight to
the Checklist step with the Packaging checklist built, and the subsequent
submission drives packagingStatus out of 'pending' (to 'completed') while
fqcStatus is still 'pending' — the stage gate is never consulted on this path. -/
theorem scan_path_bypasses_gate :
    getDeviceStatus ([] : List DeviceStatus) "D1" = none ∧
    (scanDecode scanSessionPackaging "D1").step = WorkflowStep.checklist ∧
    (scanDecode scanSessionPackaging "D1").deviceId = "D1" ∧
    (scanDecode scanSessionPackaging "D1").checkpoints = buildChecklist StageSel.Packaging ∧
    getDeviceStatus (handleFinalSubmit { reports := [], deviceStatuses := [] }
        passPkgCps StageSel.Packaging "op1" "D1" 5).deviceStatuses "D1" =
      some { deviceId := "D1", fqcStatus := StageOutcome.pending,
             packagingStatus := StageOutcome.completed, lastUpdated := 5 } := by
  refine ⟨rfl, rfl, rfl, rfl, rfl⟩

/-- Embedding of the User interface of src/types.ts (assignedStage is
null-able). -/
structure User where
  userId : String
  password : String
  isAdmin : Bool
  isActive : Bool
  assignedStage : Option StageSel
deriving DecidableEq

/-- The seeded admin account (INITIAL_ADMIN_USER of constants.tsx). -/
def initialAdminUser : User :=
  { userId := "admin", password := "123", isAdmin := true, isActive := true,
    assignedStage := some StageSel.FQC }

/-- Embedding of the creation branch of AdminPanel.handleSubmit (src/App.tsx
lines 804-829): given non-empty id and password, the new operator is appended
to the list with no lookup of existing ids. -/
def createUser (users : List User) (newUserId newPassword : String) (newStage : StageSel) :
    List User :=
  if newUserId = "" ∨ newPassword = "" then users
  else users ++ [{ userId := newUserId, password := newPassword, isAdmin := false,
                   isActive := true, assignedStage := some newStage }]

/-- Embedding of the editing branch of AdminPanel.handleSubmit: only password
and assignedStage of the row with the edited id are replaced. -/
def updateUser (users : List User) (editingUserId newPassword : String) (newStage : StageSel) :
    List User :=
  if editingUserId = "" ∨ newPassword = "" then users
  else users.map fun u =>
    if u.userId = editingUserId then
      { u with password := newPassword, assignedStage := some newStage }
    else u

/-- Embedding of AdminPanel.toggleStatus: a no-op for the seeded admin,
otherwise flips isActive of the matching row. -/
def toggleActive (users : List User) (userId : String) : List User :=
  if userId = "admin" then users
  else users.map fun u => if u.userId = userId then { u with isActive := !u.isActive } else u

/-- Embedding of AdminPanel.deleteUser: a no-op for the seeded admin,
otherwise removes the matching rows. -/
def deleteUser (users : List User) (userId : String) : List User :=
  if userId = "admin" then users
  else users.filter fun u => decide (u.userId ≠ userId)

/-- C7 counterexample: starting from the seeded collection (distinct ids),
creating an operator with the already-existing id admin is not rejected and
leaves the collection with two rows whose userId values coincide. -/
theorem createUser_duplicate_cex :
    (([initialAdminUser].map fun u => u.userId).Nodup) ∧
    ¬ (((createUser [initialAdminUser] "admin" "pw" StageSel.FQC).map
        fun u => u.userId).Nodup) := by
  constructor
  · simp
  · decide

/-- Mapping userId over a map that never changes userId is the identity on the
id list. -/
theorem map_userId_of_preserving (users : List User) (f : User → User)
    (hf : ∀ u, (f u).userId = u.userId) :
    ((users.map f).map fun u => u.userId) = users.map fun u => u.userId := by
  induction users with
  | nil => rfl
  | cons u us ih => simp [hf, ih]

/-- C7 amended: the Admin Directory performs no duplicate-id check at
creation (see the counterexample), but the remaining operations preserve
pairwise-distinct userId values: updateUser and toggleActive never change any
userId, and deleteUser only removes rows. -/
theorem admin_ops_preserve_unique_ids (users : List User) (i p : String) (st : StageSel)
    (h : (users.map fun u => u.userId).Nodup) :
    ((updateUser users i p st).map fun u => u.userId).Nodup ∧
    ((toggleActive users i).map fun u => u.userId).Nodup ∧
    ((deleteUser users i).map fun u => u.userId).Nodup := by
  refine ⟨?_, ?_, ?_⟩
  · rw [updateUser]
    split
    · exact h
    · rw [map_userId_of_preserving]
      · exact h
      · intro u
        by_cases hu : u.userId = i <;> simp [hu]
  · rw [toggleActive]
    split
    · exact h
    · rw [map_userId_of_preserving]
      · exact h
      · intro u
        by_cases hu : u.userId = i <;> simp [hu]
  · rw [deleteUser]
    split
    · exact h
    · exact h.sublist (List.Sublist.map _ (List.filter_sublist users))

/-- Witness for the amended C7 on the seeded collection. -/
theorem admin_ops_preserve_unique_ids_witness :
    ((updateUser [initialAdminUser] "admin" "pw2" StageSel.FQC).map fun u => u.userId).Nodup ∧
    ((toggleActive [initialAdminUser] "admin").map fun u => u.userId).Nodup ∧
    ((deleteUser [initialAdminUser] "admin").map fun u => u.userId).Nodup :=
  admin_ops_preserve_unique_ids [initialAdminUser] "admin" "pw2" StageSel.FQC (by decide)

/-- Embedding of the device-status table of renderDashboard (src/App.tsx line
556): deviceStatuses.slice(0, 10), rendered in stored order. -/
def dashboardDeviceRows (statuses : List DeviceStatus) : List DeviceStatus :=
  statuses.take 10

/-- An early-stored row with an old timestamp. -/
def rowOld : DeviceStatus :=
  { deviceId := "A", fqcStatus := StageOutcome.completed,
    packagingStatus := StageOutcome.pending, lastUpdated := 1 }

/-- A later-stored row with a newer timestamp. -/
def rowNew : DeviceStatus :=
  { deviceId := "B", fqcStatus := StageOutcome.completed,
    packagingStatus := StageOutcome.pending, lastUpdated := 2 }

/-- C8 counterexample: with two stored rows whose storage order is the reverse
of recency, the table shows them in stored order, which is not sorted by
lastUpdated descending. -/
theorem dashboard_rows_unsorted_cex :
    dashboardDeviceRows [rowOld, rowNew] = [rowOld, rowNew] ∧
    rowOld.lastUpdated < rowNew.lastUpdated ∧
    ¬ (dashboardDeviceRows [rowOld, rowNew]).Pairwise
        (fun a b => b.lastUpdated ≤ a.lastUpdated) := by
  refine ⟨rfl, by decide, ?_⟩
  intro hp
  rw [show dashboardDeviceRows [rowOld, rowNew] = [rowOld, rowNew] from rfl,
    List.pairwise_cons] at hp
  have := hp.1 rowNew (by simp)
  simp [rowOld, rowNew] at this

/-- C8 amended: the table shows the first at-most-10 stored rows in stored
(insertion) order — a prefix of the collection of length at most 10, with no
re-sorting by lastUpdated; when at most 10 rows are stored it shows them all. -/
theorem dashboard_rows_spec (statuses : List DeviceStatus) :
    (∃ rest, statuses = dashboardDeviceRows statuses ++ rest) ∧
    (dashboardDeviceRows statuses).length ≤ 10 ∧
    (statuses.length ≤ 10 → dashboardDeviceRows statuses = statuses) := by
  refine ⟨⟨statuses.drop 10, (List.take_append_drop 10 statuses).symm⟩, ?_, ?_⟩
  · simp [dashboardDeviceRows]
  · intro hlen
    exact List.take_of_length_le hlen

/-- Witness for the amended C8 on a one-row store. -/
theorem dashboard_rows_spec_witness :
    dashboardDeviceRows [rowOld] = [rowOld] :=
  (dashboard_rows_spec [rowOld]).2.2 (by decide)

/-- The quote-doubling step of the CSV escape helper: each double-quote
character is replaced by two (the .replace of src/App.tsx line 312). -/
def escapeQuotes : List Char → List Char
  | [] => []
  | c :: cs => if c = '"' then '"' :: '"' :: escapeQuotes cs else c :: escapeQuotes cs

/-- Embedding of the CSV escape helper of handleExportCSV (src/App.tsx line
312): the value with internal quotes doubled, wrapped in double quotes. (The
String(val or empty) coercion is the identity on the string values escaped
here.) -/
def escapeCSV (s : String) : String :=
  "\"" ++ String.mk (escapeQuotes s.data) ++ "\""

/-- C9 counterexample: on a value free of quotes the escaping is not
idempotent — applying it again does not leave the escaped value unchanged,
because the first application always adds surrounding quotes. -/
theorem escapeCSV_not_idempotent_cex :
    (∀ c ∈ "a".data, c ≠ '"') ∧
    escapeCSV "a" = "\"a\"" ∧
    escapeCSV (escapeCSV "a") ≠ escapeCSV "a" := by
  refine ⟨by decide, rfl, by decide⟩

/-- Quote-doubling is the identity on values free of quotes. -/
theorem escapeQuotes_of_no_quote (l : List Char) (h : ∀ c ∈ l, c ≠ '"') :
    escapeQuotes l = l := by
  induction l with
  | nil => rfl
  | cons c cs ih =>
      have hc : c ≠ '"' := h c (by simp)
      simp [escapeQuotes, hc, ih fun x hx => h x (by simp [hx])]

/-- C9 amended: every field value is wrapped in double quotes with each
internal quote doubled — the He-said-hi example escapes exactly as claimed,
and on a value already free of quotes the internal doubling step is the
identity, so escaping only adds the surrounding quotes; because of those added
quotes the full escaping is not idempotent (see the counterexample). -/
theorem escapeCSV_spec :
    (∀ s : String, (∀ c ∈ s.data, c ≠ '"') → escapeCSV s = "\"" ++ s ++ "\"") ∧
    escapeCSV "He said \"hi\"" = "\"He said \"\"hi\"\"\"" := by
  constructor
  · intro s h
    cases s with
    | mk data =>
        rw [escapeCSV, escapeQuotes_of_no_quote data h]
  · rfl

/-- Witness for the amended C9 on a concrete quote-free value. -/
theorem escapeCSV_spec_witness :
    escapeCSV "abc" = "\"" ++ "abc" ++ "\"" :=
  escapeCSV_spec.1 "abc" (by decide)

/-- Model of the ASCII upper-casing performed by the manual serial-number
input's onChange (src/App.tsx line 652: e.target.value.toUpperCase()). -/
def upperChar (c : Char) : Char :=
  if 'a' ≤ c ∧ c ≤ 'z' then Char.ofNat (c.toNat - 32) else c

/-- Upper-casing applied to a whole string. -/
def upperString (s : String) : String :=
  String.mk (s.data.map upperChar)

/-- The deviceId stored when the operator types s at the manual entry field:
the field's onChange stores the upper-cased value. -/
def manualDeviceIdUpdate (typed : String) : String :=
  upperString typed

/-- The deviceId stored by the scan path (src/App.tsx line 149:
setDeviceId(code.data)): the decoded string verbatim. -/
def scannedDeviceId (decoded : String) : String :=
  decoded

/-- A map that leaves a list unchanged fixes every member. -/
theorem list_map_eq_self {α : Type} (f : α → α) (l : List α) (h : l.map f = l) :
    ∀ x ∈ l, f x = x := by
  induction l with
  | nil => intro x hx; cases hx
  | cons a as ih =>
      rw [List.map_cons, List.cons.injEq] at h
      intro x hx
      rcases List.mem_cons.mp hx with hxa | hxs
      · rw [hxa]; exact h.1
      · exact ih h.2 x hxs

/-- C10: the stored identifier depends on the entry path — manual typing
stores the upper-cased string, scanning stores the decoded string verbatim, so
any label containing a character the upper-casing changes (in particular a
lower-case letter) yields different DeviceStatus keys on the two paths. -/
theorem deviceId_path_dependence (s : String) (h : ∃ c ∈ s.data, upperChar c ≠ c) :
    manualDeviceIdUpdate s = upperString s ∧
    scannedDeviceId s = s ∧
    manualDeviceIdUpdate s ≠ scannedDeviceId s := by
  refine ⟨rfl, rfl, ?_⟩
  intro heq
  rcases h with ⟨c, hc, hne⟩
  cases s with
  | mk data =>
      have hmap : data.map upperChar = data := congrArg String.data heq
      exact hne (list_map_eq_self upperChar data hmap c hc)

/-- Witness for C10: the label ab typed manually becomes AB but scans as ab,
two different keys. -/
theorem deviceId_path_dependence_witness :
    manualDeviceIdUpdate "ab" ≠ scannedDeviceId "ab" :=
  (deviceId_path_dependence "ab" (by decide)).2.2

end FlexQC
